import Mathlib

/-!
Shallow embedding of the SmartLearning (GeneXis) account/session core and
the generation-client JSON boundary, translated from src/src/App.tsx
(AuthProvider: signup, login, updateProfile, logout; AppLayout onboarding
gate; ProfileSetup) and src/unnamed/part_000 (generateQuiz,
generateLearningContent).
-/

namespace SmartLearning

/-- Public profile fields of a user, mirroring the UserProfile interface in
App.tsx. Optional TS fields become Option; the session type has no
password field, mirroring that sessions never carry one. -/
structure UserProfile where
  email : String
  name : String
  createdAt : Nat
  educationLevel : Option String
  interests : Option (List String)
  knowledgeLevel : Option String
  xp : Nat
  level : Nat
  streak : Nat
  deriving DecidableEq

/-- A credential-store record: the public fields plus the password, as
stored by signup via the spread of the user object with the password. -/
structure AccountRecord where
  user : UserProfile
  password : String
  deriving DecidableEq

/-- A Partial of UserProfile, as accepted by updateProfile. A field that is
none is absent from the partial object; a field that is some v overrides. -/
structure ProfilePatch where
  email : Option String := none
  name : Option String := none
  createdAt : Option Nat := none
  educationLevel : Option (Option String) := none
  interests : Option (Option (List String)) := none
  knowledgeLevel : Option (Option String) := none
  xp : Option Nat := none
  level : Option Nat := none
  streak : Option Nat := none
  deriving DecidableEq

/-- JS object spread of one field: the patch value when present, the old
value otherwise. -/
def overrideOpt {α : Type} (old : α) (new? : Option α) : α :=
  match new? with
  | some v => v
  | none => old

/-- JS object spread of a whole patch into a profile, as in the braces
spread of authUser with data in updateProfile. -/
def applyPatch (u : UserProfile) (p : ProfilePatch) : UserProfile where
  email := overrideOpt u.email p.email
  name := overrideOpt u.name p.name
  createdAt := overrideOpt u.createdAt p.createdAt
  educationLevel := overrideOpt u.educationLevel p.educationLevel
  interests := overrideOpt u.interests p.interests
  knowledgeLevel := overrideOpt u.knowledgeLevel p.knowledgeLevel
  xp := overrideOpt u.xp p.xp
  level := overrideOpt u.level p.level
  streak := overrideOpt u.streak p.streak

/-- The browser-visible state: the genexis_users mapping in localStorage,
the genexis_session entry in localStorage, the genexis_session entry in
sessionStorage, and the in-memory authUser React state. -/
@[ext]
structure StoreState where
  users : String → Option AccountRecord
  localSession : Option UserProfile
  sessionSession : Option UserProfile
  authUser : Option UserProfile

/-- State with empty stores and no active session. -/
def emptyState : StoreState :=
  ⟨fun _ => none, none, none, none⟩

/-- Result shape of signup and login: ok true, or ok false with an error
message. -/
inductive AuthResult where
  | ok : AuthResult
  | err : String → AuthResult
  deriving DecidableEq

/-- The fresh user object built by signup: default profile with xp 0,
level 1, streak 1 and no onboarding fields. -/
def defaultUser (email name : String) (now : Nat) : UserProfile :=
  ⟨email, name, now, none, none, none, 0, 1, 1⟩

/-- signup from App.tsx: duplicate email fails with the fixed message;
otherwise the record (user plus password) is stored under the email, the
session is written to localStorage, and authUser is set. The Date.now
timestamp is the explicit parameter now. -/
def signup (s : StoreState) (email password name : String) (now : Nat) :
    StoreState × AuthResult :=
  match s.users email with
  | some _ => (s, AuthResult.err "An account with this email already exists.")
  | none =>
    let user := defaultUser email name now
    ({ s with
        users := fun e => if e = email then some ⟨user, password⟩ else s.users e,
        localSession := some user,
        authUser := some user },
     AuthResult.ok)

/-- login from App.tsx: missing record and password mismatch fail with
their fixed messages; on success the session (record minus password) goes
to localStorage when remember is true, to sessionStorage otherwise, and
authUser is set. -/
def login (s : StoreState) (email password : String) (remember : Bool) :
    StoreState × AuthResult :=
  match s.users email with
  | none => (s, AuthResult.err "No account found with that email.")
  | some record =>
    if record.password ≠ password then (s, AuthResult.err "Incorrect password.")
    else
      if remember then
        ({ s with localSession := some record.user, authUser := some record.user },
         AuthResult.ok)
      else
        ({ s with sessionSession := some record.user, authUser := some record.user },
         AuthResult.ok)

/-- updateProfile from App.tsx: no-op without authUser; otherwise merges
the data into authUser, writes the merged session to localStorage
(unconditionally), and patches the stored record when the email is
present in the users mapping. -/
def updateProfile (s : StoreState) (data : ProfilePatch) : StoreState :=
  match s.authUser with
  | none => s
  | some au =>
    let updated := applyPatch au data
    let users1 : String → Option AccountRecord :=
      match s.users au.email with
      | some record =>
        fun e => if e = au.email
                 then some ⟨applyPatch record.user data, record.password⟩
                 else s.users e
      | none => s.users
    { s with users := users1, localSession := some updated, authUser := some updated }

/-- logout from App.tsx: removes the session from both storages and clears
authUser; the users mapping is untouched. -/
def logout (s : StoreState) : StoreState :=
  { s with localSession := none, sessionSession := none, authUser := none }

/-- The AppLayout gate: ProfileSetup is shown when the optional chain
authUser educationLevel is falsy, that is when there is no session, no
education level, or an empty-string education level. -/
def routesToOnboarding : Option UserProfile → Bool
  | none => true
  | some u =>
    match u.educationLevel with
    | none => true
    | some e => e = ""

/-- The data object collected by the three ProfileSetup steps and passed
to updateProfile on completion. -/
def onboardingPatch (edu : String) (ints : List String) (kn : String) : ProfilePatch :=
  { educationLevel := some (some edu),
    interests := some (some ints),
    knowledgeLevel := some (some kn) }

/-- Completing the three onboarding steps: ProfileSetup calls
updateProfile with exactly the three collected fields. -/
def completeOnboarding (s : StoreState) (edu : String) (ints : List String) (kn : String) :
    StoreState :=
  updateProfile s (onboardingPatch edu ints kn)

/-- JSON value as produced by JSON.parse; numbers keep their raw token
text since no claim inspects numeric values. -/
inductive Json where
  | null : Json
  | bool : Bool → Json
  | num : String → Json
  | str : String → Json
  | arr : List Json → Json
  | obj : List (String × Json) → Json

/-- JSON whitespace characters. -/
def isJsonWs (c : Char) : Bool :=
  c = ' ' ∨ c = '\t' ∨ c = '\n' ∨ c = '\r'

/-- Drop leading JSON whitespace. -/
def skipWs : List Char → List Char
  | [] => []
  | c :: cs => if isJsonWs c then skipWs cs else c :: cs

/-- Whether a character is a hexadecimal digit. -/
def isHexDigitChar (c : Char) : Bool :=
  ('0' ≤ c ∧ c ≤ '9') ∨ ('a' ≤ c ∧ c ≤ 'f') ∨ ('A' ≤ c ∧ c ≤ 'F')

/-- Numeric value of a hex digit, 0 for other characters. -/
def hexVal (c : Char) : Nat :=
  if '0' ≤ c ∧ c ≤ '9' then c.toNat - '0'.toNat
  else if 'a' ≤ c ∧ c ≤ 'f' then c.toNat - 'a'.toNat + 10
  else if 'A' ≤ c ∧ c ≤ 'F' then c.toNat - 'A'.toNat + 10
  else 0

/-- Body of a JSON string after the opening quote: plain characters and
backslash escapes up to the closing quote; none on a malformed or
unterminated string. -/
def parseStringRest (acc : List Char) : List Char → Option (String × List Char)
  | [] => none
  | '\x22' :: rest => some (String.mk acc.reverse, rest)
  | '\x5c' :: e :: rest =>
    match e with
    | '\x22' => parseStringRest ('\x22' :: acc) rest
    | '\x5c' => parseStringRest ('\x5c' :: acc) rest
    | '/' => parseStringRest ('/' :: acc) rest
    | 'b' => parseStringRest ('\x08' :: acc) rest
    | 'f' => parseStringRest ('\x0c' :: acc) rest
    | 'n' => parseStringRest ('\n' :: acc) rest
    | 'r' => parseStringRest ('\r' :: acc) rest
    | 't' => parseStringRest ('\t' :: acc) rest
    | 'u' =>
      match rest with
      | h1 :: h2 :: h3 :: h4 :: rest2 =>
        if isHexDigitChar h1 ∧ isHexDigitChar h2 ∧ isHexDigitChar h3 ∧ isHexDigitChar h4 then
          parseStringRest
            (Char.ofNat (((hexVal h1 * 16 + hexVal h2) * 16 + hexVal h3) * 16 + hexVal h4) :: acc)
            rest2
        else none
      | _ => none
    | _ => none
  | '\x5c' :: [] => none
  | c :: rest => parseStringRest (c :: acc) rest

/-- Longest leading run of decimal digits. -/
def takeDigits : List Char → List Char × List Char
  | [] => ([], [])
  | c :: cs =>
    if c.isDigit then
      let r := takeDigits cs
      (c :: r.1, r.2)
    else ([], c :: cs)

/-- Integer part of a JSON number: a single 0, or a nonzero digit followed
by digits; a leading 0 followed by a digit is rejected. -/
def parseIntPart : List Char → Option (List Char × List Char)
  | [] => none
  | c :: rest =>
    if c = '0' then
      match rest with
      | d :: _ => if d.isDigit then none else some (['0'], rest)
      | [] => some (['0'], [])
    else if c.isDigit then
      let r := takeDigits rest
      some (c :: r.1, r.2)
    else none

/-- Optional fraction part: a dot must be followed by at least one digit. -/
def parseFracPart : List Char → Option (List Char × List Char)
  | '.' :: rest =>
    match takeDigits rest with
    | ([], _) => none
    | (ds, rest2) => some ('.' :: ds, rest2)
  | cs => some ([], cs)

/-- Optional exponent part: e or E, optional sign, at least one digit. -/
def parseExpPart : List Char → Option (List Char × List Char)
  | [] => some ([], [])
  | c :: rest =>
    if c = 'e' ∨ c = 'E' then
      let sr : List Char × List Char :=
        match rest with
        | s :: r => if s = '+' ∨ s = '-' then ([s], r) else ([], rest)
        | [] => ([], [])
      match takeDigits sr.2 with
      | ([], _) => none
      | (ds, rest2) => some (c :: (sr.1 ++ ds), rest2)
    else some ([], c :: rest)

/-- A complete JSON number token starting at the given characters. -/
def parseNumber (cs : List Char) : Option (String × List Char) :=
  let sr : List Char × List Char :=
    match cs with
    | '-' :: rest => (['-'], rest)
    | _ => ([], cs)
  match parseIntPart sr.2 with
  | none => none
  | some (ip, cs2) =>
    match parseFracPart cs2 with
    | none => none
    | some (fp, cs3) =>
      match parseExpPart cs3 with
      | none => none
      | some (ep, cs4) => some (String.mk (sr.1 ++ ip ++ fp ++ ep), cs4)

/-- The three recursive parsing tasks: a value, the items of a non-empty
array, the members of a non-empty object. -/
inductive ParseJob where
  | value : List Char → ParseJob
  | arrItems : List Char → List Json → ParseJob
  | objItems : List Char → List (String × Json) → ParseJob

/-- Recursive-descent JSON parser, fuel-indexed so that recursion is
structural; every recursive call decreases the fuel. -/
def parseRun : Nat → ParseJob → Except String (Json × List Char)
  | 0, _ => Except.error "maximum recursion depth exceeded"
  | f + 1, ParseJob.value cs =>
    match skipWs cs with
    | [] => Except.error "unexpected end of JSON input"
    | 'n' :: 'u' :: 'l' :: 'l' :: rest => Except.ok (Json.null, rest)
    | 't' :: 'r' :: 'u' :: 'e' :: rest => Except.ok (Json.bool true, rest)
    | 'f' :: 'a' :: 'l' :: 's' :: 'e' :: rest => Except.ok (Json.bool false, rest)
    | '\x22' :: rest =>
      match parseStringRest [] rest with
      | some (s, rest2) => Except.ok (Json.str s, rest2)
      | none => Except.error "unterminated string"
    | '[' :: rest =>
      match skipWs rest with
      | ']' :: rest2 => Except.ok (Json.arr [], rest2)
      | rest2 => parseRun f (ParseJob.arrItems rest2 [])
    | '\x7b' :: rest =>
      match skipWs rest with
      | '\x7d' :: rest2 => Except.ok (Json.obj [], rest2)
      | rest2 => parseRun f (ParseJob.objItems rest2 [])
    | c :: rest =>
      if c = '-' ∨ c.isDigit then
        match parseNumber (c :: rest) with
        | some (raw, rest2) => Except.ok (Json.num raw, rest2)
        | none => Except.error "invalid number"
      else Except.error "unexpected token"
  | f + 1, ParseJob.arrItems cs acc =>
    match parseRun f (ParseJob.value cs) with
    | Except.error e => Except.error e
    | Except.ok (j, rest) =>
      match skipWs rest with
      | ',' :: rest2 => parseRun f (ParseJob.arrItems rest2 (j :: acc))
      | ']' :: rest2 => Except.ok (Json.arr (j :: acc).reverse, rest2)
      | _ => Except.error "expected comma or closing bracket in array"
  | f + 1, ParseJob.objItems cs acc =>
    match skipWs cs with
    | '\x22' :: rest =>
      match parseStringRest [] rest with
      | none => Except.error "unterminated string"
      | some (key, rest2) =>
        match skipWs rest2 with
        | ':' :: rest3 =>
          match parseRun f (ParseJob.value rest3) with
          | Except.error e => Except.error e
          | Except.ok (j, rest4) =>
            match skipWs rest4 with
            | ',' :: rest5 => parseRun f (ParseJob.objItems rest5 ((key, j) :: acc))
            | '\x7d' :: rest5 => Except.ok (Json.obj ((key, j) :: acc).reverse, rest5)
            | _ => Except.error "expected comma or closing brace in object"
        | _ => Except.error "expected colon in object"
    | _ => Except.error "expected string key in object"

/-- JSON.parse: parse one value and require only whitespace after it; an
input that is empty, malformed, or has trailing content is an error
(a thrown SyntaxError in JS). -/
def jsonParse (text : String) : Except String Json :=
  match parseRun (2 * text.length + 4) (ParseJob.value text.data) with
  | Except.error e => Except.error e
  | Except.ok (j, rest) =>
    if (skipWs rest).isEmpty then Except.ok j
    else Except.error "unexpected non-whitespace character after JSON data"

/-- The JS expression t or-else d on a string-or-undefined t: d when t is
undefined or the empty string (both falsy), t otherwise. -/
def orDefault (t : Option String) (d : String) : String :=
  match t with
  | none => d
  | some s => if s = "" then d else s

/-- generateQuiz from the service module: JSON.parse of the response text,
with the literal array-brackets string substituted when the text is
absent or empty. A parse error of JSON.parse propagates. -/
def generateQuiz (responseText : Option String) : Except String Json :=
  jsonParse (orDefault responseText "[]")

/-- generateLearningContent from the service module: JSON.parse of the
response text, with the literal empty-object string substituted when the
text is absent or empty. A parse error of JSON.parse propagates. -/
def generateLearningContent (responseText : Option String) : Except String Json :=
  jsonParse (orDefault responseText "\x7b\x7d")

/-- Scenario state: signup of the running example account into the empty
store. -/
def sAfterSignup : StoreState :=
  (signup emptyState "a@x.com" "secret1" "Alex" 0).1

/-- Scenario state: logout after the example signup. -/
def sAfterLogout : StoreState :=
  logout sAfterSignup

/-- Scenario state: login with remember false directly after signup, with
no logout in between. -/
def sLoginNoRemember : StoreState :=
  (login sAfterSignup "a@x.com" "secret1" false).1

/-- Scenario state: login with remember false after signup and logout. -/
def sRememberFalse : StoreState :=
  (login sAfterLogout "a@x.com" "secret1" false).1

/-- The partial profile of the spec example: education set to Graduate. -/
def graduatePatch : ProfilePatch :=
  { educationLevel := some (some "Graduate") }

/-- Scenario state: updateProfile with the Graduate patch while the
session lives in process-lifetime storage. -/
def sAfterUpdate : StoreState :=
  updateProfile sRememberFalse graduatePatch

/-- Spreading the same patch twice over a field gives the same value as
spreading it once. -/
theorem overrideOpt_idem {α : Type} (old : α) (n : Option α) :
    overrideOpt (overrideOpt old n) n = overrideOpt old n := by
  cases n <;> rfl

/-- Spreading the same patch twice over a profile gives the same profile
as spreading it once. -/
theorem applyPatch_idem (u : UserProfile) (p : ProfilePatch) :
    applyPatch (applyPatch u p) p = applyPatch u p := by
  simp [applyPatch, overrideOpt_idem]

/-- A patch that does not touch the email leaves the email unchanged. -/
theorem applyPatch_email (u : UserProfile) (p : ProfilePatch) (hp : p.email = none) :
    (applyPatch u p).email = u.email := by
  simp [applyPatch, hp, overrideOpt]

/-- updateProfile is idempotent for patches that do not change the email:
running the same patch twice from the same session yields the same
state as running it once. -/
theorem updateProfile_idem (s : StoreState) (p : ProfilePatch) (hp : p.email = none) :
    updateProfile (updateProfile s p) p = updateProfile s p := by
  rcases hau : s.authUser with _ | au
  · simp [updateProfile, hau]
  · have hem : (applyPatch au p).email = au.email := applyPatch_email au p hp
    rcases hrec : s.users au.email with _ | rec
    · simp only [updateProfile, hau, hem, hrec, applyPatch_idem]
    · simp [updateProfile, hau, hem, hrec, applyPatch_idem]
      funext e
      by_cases he : e = au.email <;> simp [he]

/-- C1 counterexample: on the non-empty unparseable response body oops,
both generateQuiz and generateLearningContent propagate a parse error to
the caller instead of yielding an empty result, refuting the claim that
any parse failure yields an empty sequence or empty document. -/
theorem c1_unparseable_propagates :
    generateQuiz (some "oops") = Except.error "unexpected token" ∧
    generateLearningContent (some "oops") = Except.error "unexpected token" :=
  ⟨rfl, rfl⟩

/-- C1 (amended): when the remote response body is empty or absent,
generateQuiz yields the empty sequence and generateLearningContent yields
the empty-object document, without failing; a non-empty body that fails
to parse as JSON instead propagates the parse failure. -/
theorem c1_empty_response_fallback (t : Option String)
    (h : t = none ∨ t = some "") :
    generateQuiz t = Except.ok (Json.arr []) ∧
    generateLearningContent t = Except.ok (Json.obj []) := by
  rcases h with h | h <;> subst h <;> exact ⟨rfl, rfl⟩

/-- C1 witness: the amended fallback at the absent response body. -/
theorem c1_empty_response_fallback_witness :
    generateQuiz none = Except.ok (Json.arr []) ∧
    generateLearningContent none = Except.ok (Json.obj []) :=
  c1_empty_response_fallback none (Or.inl rfl)

/-- C2 counterexample: with the session created by a remember-false login
(process-lifetime storage only, durable storage empty), updateProfile
with the Graduate patch writes the merged session to durable storage and
leaves the process-lifetime copy stale, refuting the claim that the write
goes back to the store used at login. -/
theorem c2_update_writes_durable_counterexample :
    sRememberFalse.localSession = none ∧
    sAfterUpdate.localSession =
      some { defaultUser "a@x.com" "Alex" 0 with educationLevel := some "Graduate" } ∧
    sAfterUpdate.sessionSession = some (defaultUser "a@x.com" "Alex" 0) :=
  ⟨rfl, rfl, rfl⟩

/-- C2 (amended): for every active session, updateProfile merges the
fields into the in-memory session, patches the Credential Store record
for that email with the same fields so that a subsequent fresh login
reflects the update, but always writes the merged session to durable
storage, regardless of which store was used at login or signup; a
process-lifetime copy of the session is left unchanged. -/
theorem c2_updateProfile_behaviour (s : StoreState) (au : UserProfile) (p : ProfilePatch)
    (h : s.authUser = some au) :
    (updateProfile s p).authUser = some (applyPatch au p) ∧
    (updateProfile s p).localSession = some (applyPatch au p) ∧
    (updateProfile s p).sessionSession = s.sessionSession ∧
    (∀ rec : AccountRecord, s.users au.email = some rec →
      (updateProfile s p).users au.email = some ⟨applyPatch rec.user p, rec.password⟩ ∧
      (login (updateProfile s p) au.email rec.password true).2 = AuthResult.ok ∧
      (login (updateProfile s p) au.email rec.password true).1.authUser =
        some (applyPatch rec.user p)) := by
  refine ⟨?_, ?_, ?_, ?_⟩
  · rcases hrec : s.users au.email with _ | rec <;> simp [updateProfile, h, hrec]
  · rcases hrec : s.users au.email with _ | rec <;> simp [updateProfile, h, hrec]
  · rcases hrec : s.users au.email with _ | rec <;> simp [updateProfile, h, hrec]
  · intro rec hrec
    simp [updateProfile, login, h, hrec]

/-- C2 witness: the amended behaviour at the concrete remember-false
scenario state with the Graduate patch. -/
theorem c2_updateProfile_behaviour_witness :
    (updateProfile sRememberFalse graduatePatch).localSession =
      some (applyPatch (defaultUser "a@x.com" "Alex" 0) graduatePatch) :=
  (c2_updateProfile_behaviour sRememberFalse (defaultUser "a@x.com" "Alex" 0)
    graduatePatch rfl).2.1

/-- C3 counterexample: after a remember-false login followed by an
updateProfile, the session is present in durable storage and in
process-lifetime storage simultaneously, refuting the claim that no
operation of the session lifecycle makes it present in both. -/
theorem c3_both_stores_counterexample :
    sAfterUpdate.localSession.isSome = true ∧
    sAfterUpdate.sessionSession.isSome = true :=
  ⟨rfl, rfl⟩

/-- C3 (amended): a successful login from a state in which neither store
holds a session leaves the session in exactly the store selected by the
remember flag; this exclusivity is not preserved by later operations,
since updateProfile always writes the durable store. -/
theorem c3_login_single_target (s : StoreState) (e p : String) (r : Bool)
    (hl : s.localSession = none) (hs : s.sessionSession = none)
    (hok : (login s e p r).2 = AuthResult.ok) :
    ((login s e p r).1.localSession.isSome = true ↔ r = true) ∧
    ((login s e p r).1.sessionSession.isSome = true ↔ r = false) := by
  rcases hrec : s.users e with _ | rec
  · simp [login, hrec] at hok
  · by_cases hp : rec.password = p
    · cases r <;> simp [login, hrec, hp, hl, hs]
    · simp [login, hrec, hp] at hok

/-- C3 witness: the amended exclusivity at a remembered login into the
empty-store scenario state. -/
theorem c3_login_single_target_witness :
    ((login sAfterLogout "a@x.com" "secret1" true).1.localSession.isSome = true ↔
      true = true) ∧
    ((login sAfterLogout "a@x.com" "secret1" true).1.sessionSession.isSome = true ↔
      true = false) :=
  c3_login_single_target sAfterLogout "a@x.com" "secret1" true rfl rfl rfl

/-- C4 counterexample: directly after signup followed by a remember-false
login, the session is still present in durable storage (left there by
signup), refuting the claim that it is present only in process-lifetime
storage. -/
theorem c4_durable_not_cleared_counterexample :
    sLoginNoRemember.localSession = some (defaultUser "a@x.com" "Alex" 0) ∧
    sLoginNoRemember.localSession.isSome = true :=
  ⟨rfl, rfl⟩

/-- C4 (amended): from the empty store, the signup and remember-false
login of the example account leave the session in process-lifetime
storage with name Alex, xp 0, level 1, streak 1, but the durable copy
written by signup also remains, since a remember-false login does not
clear durable storage; with a logout between the two steps the session
is present only in process-lifetime storage. -/
theorem c4_signup_then_login_noremember :
    sLoginNoRemember.sessionSession = some (defaultUser "a@x.com" "Alex" 0) ∧
    sLoginNoRemember.localSession = some (defaultUser "a@x.com" "Alex" 0) ∧
    sRememberFalse.sessionSession = some (defaultUser "a@x.com" "Alex" 0) ∧
    sRememberFalse.localSession = none ∧
    (defaultUser "a@x.com" "Alex" 0).name = "Alex" ∧
    (defaultUser "a@x.com" "Alex" 0).xp = 0 ∧
    (defaultUser "a@x.com" "Alex" 0).level = 1 ∧
    (defaultUser "a@x.com" "Alex" 0).streak = 1 :=
  ⟨rfl, rfl, rfl, rfl, rfl, rfl, rfl, rfl⟩

/-- C5: login with an unknown email fails with the no-account message and
login with a wrong password for an existing record fails with the
incorrect-password message; in both cases the returned state is exactly
the input state, so no session is established and both stores are
unchanged. -/
theorem c5_login_failures (s : StoreState) (e p : String) (r : Bool) :
    (s.users e = none →
      login s e p r = (s, AuthResult.err "No account found with that email.")) ∧
    (∀ rec : AccountRecord, s.users e = some rec → rec.password ≠ p →
      login s e p r = (s, AuthResult.err "Incorrect password.")) := by
  constructor
  · intro h
    simp [login, h]
  · intro rec h hp
    simp [login, h, hp]

/-- C5 witness: the two failure cases at the empty store and at the store
holding the example account with a wrong password. -/
theorem c5_login_failures_witness :
    login emptyState "a@x.com" "secret1" true =
      (emptyState, AuthResult.err "No account found with that email.") ∧
    login sAfterSignup "a@x.com" "wrong" true =
      (sAfterSignup, AuthResult.err "Incorrect password.") :=
  ⟨(c5_login_failures emptyState "a@x.com" "secret1" true).1 rfl,
   (c5_login_failures sAfterSignup "a@x.com" "wrong" true).2
     ⟨defaultUser "a@x.com" "Alex" 0, "secret1"⟩ rfl (by decide)⟩

/-- C6: a signup with an email that already has a record fails with the
duplicate-account message, the whole state is returned unchanged, and in
particular the original record for that email is intact. -/
theorem c6_signup_duplicate (s : StoreState) (e p2 n2 : String) (now : Nat)
    (rec : AccountRecord) (h : s.users e = some rec) :
    signup s e p2 n2 now =
      (s, AuthResult.err "An account with this email already exists.") ∧
    (signup s e p2 n2 now).1.users e = some rec := by
  have h1 : signup s e p2 n2 now =
      (s, AuthResult.err "An account with this email already exists.") := by
    simp [signup, h]
  exact ⟨h1, by rw [h1]; exact h⟩

/-- C6 witness: the duplicate signup against the example account. -/
theorem c6_signup_duplicate_witness :
    signup sAfterSignup "a@x.com" "other" "Bella" 5 =
      (sAfterSignup, AuthResult.err "An account with this email already exists.") :=
  (c6_signup_duplicate sAfterSignup "a@x.com" "other" "Bella" 5
    ⟨defaultUser "a@x.com" "Alex" 0, "secret1"⟩ rfl).1

/-- C7: signup of an unregistered email succeeds and stores a record with
the default profile of xp 0, level 1, streak 1; a subsequent remembered
login with the same credentials succeeds and its session equals the
public fields established by the signup. -/
theorem c7_signup_login_roundtrip (s : StoreState) (e p n : String) (now : Nat)
    (h : s.users e = none) :
    (signup s e p n now).2 = AuthResult.ok ∧
    (signup s e p n now).1.users e = some ⟨defaultUser e n now, p⟩ ∧
    (defaultUser e n now).xp = 0 ∧
    (defaultUser e n now).level = 1 ∧
    (defaultUser e n now).streak = 1 ∧
    (login (signup s e p n now).1 e p true).2 = AuthResult.ok ∧
    (login (signup s e p n now).1 e p true).1.authUser = some (defaultUser e n now) := by
  refine ⟨?_, ?_, rfl, rfl, rfl, ?_, ?_⟩ <;>
    simp [signup, login, h]

/-- C7 witness: the roundtrip at the example account over the empty
store. -/
theorem c7_signup_login_roundtrip_witness :
    (login (signup emptyState "a@x.com" "secret1" "Alex" 0).1
        "a@x.com" "secret1" true).1.authUser =
      some (defaultUser "a@x.com" "Alex" 0) :=
  (c7_signup_login_roundtrip emptyState "a@x.com" "secret1" "Alex" 0 rfl).2.2.2.2.2.2

/-- C8: the onboarding gate holds exactly when the education level of the
session is set and non-empty; completing the three onboarding steps with
non-empty selections calls updateProfile with exactly the three collected
fields, which flips the gate, and replaying the flow with the same
selections yields the same state. -/
theorem c8_onboarding_gate (s : StoreState) (au : UserProfile)
    (edu kn : String) (ints : List String)
    (h : s.authUser = some au) (he : edu ≠ "") (_hi : ints ≠ []) (_hk : kn ≠ "") :
    (routesToOnboarding (some au) = false ↔
      ∃ x, au.educationLevel = some x ∧ x ≠ "") ∧
    (completeOnboarding s edu ints kn).authUser =
      some { au with educationLevel := some edu, interests := some ints,
                     knowledgeLevel := some kn } ∧
    routesToOnboarding (completeOnboarding s edu ints kn).authUser = false ∧
    completeOnboarding (completeOnboarding s edu ints kn) edu ints kn =
      completeOnboarding s edu ints kn := by
  have hau : (completeOnboarding s edu ints kn).authUser =
      some { au with educationLevel := some edu, interests := some ints,
                     knowledgeLevel := some kn } := by
    rcases hrec : s.users au.email with _ | rec <;>
      simp [completeOnboarding, updateProfile, h, hrec, applyPatch,
        onboardingPatch, overrideOpt]
  refine ⟨?_, hau, ?_, ?_⟩
  · rcases hlv : au.educationLevel with _ | x <;> simp [routesToOnboarding, hlv]
  · rw [hau]
    simp [routesToOnboarding, he]
  · exact updateProfile_idem s (onboardingPatch edu ints kn) rfl

/-- C8 witness: the gate flip for the example session with concrete
non-empty selections. -/
theorem c8_onboarding_gate_witness :
    routesToOnboarding
      (completeOnboarding sRememberFalse "Graduate" ["Genetics"] "Beginner").authUser =
      false :=
  (c8_onboarding_gate sRememberFalse (defaultUser "a@x.com" "Alex" 0)
    "Graduate" "Beginner" ["Genetics"] rfl (by decide) (by decide) (by decide)).2.2.1

/-- C9: every session value produced by signup, login, or updateProfile is
a value of the password-free session type and equals public account
fields: the signup sessions equal the stored record minus its password,
the login sessions equal the matched record minus its password, and the
updateProfile sessions equal the patched in-memory session. -/
theorem c9_sessions_public_fields (s : StoreState) (e p n : String) (now : Nat)
    (r : Bool) (rec : AccountRecord) (au : UserProfile) (d : ProfilePatch) :
    (s.users e = none →
      (signup s e p n now).1.authUser = some (defaultUser e n now) ∧
      (signup s e p n now).1.localSession = some (defaultUser e n now) ∧
      (signup s e p n now).1.users e = some ⟨defaultUser e n now, p⟩) ∧
    (s.users e = some rec → rec.password = p →
      (login s e p r).1.authUser = some rec.user ∧
      (r = true → (login s e p r).1.localSession = some rec.user) ∧
      (r = false → (login s e p r).1.sessionSession = some rec.user)) ∧
    (s.authUser = some au →
      (updateProfile s d).authUser = some (applyPatch au d) ∧
      (updateProfile s d).localSession = some (applyPatch au d)) := by
  refine ⟨?_, ?_, ?_⟩
  · intro h
    simp [signup, h]
  · intro h hp
    cases r <;> simp [login, h, hp]
  · intro h
    rcases hrec : s.users au.email with _ | rec2 <;>
      simp [updateProfile, h, hrec]

/-- C9 witness: the login conjunct at the example account with a
remembered login. -/
theorem c9_sessions_public_fields_witness :
    (login sAfterSignup "a@x.com" "secret1" true).1.authUser =
      some (defaultUser "a@x.com" "Alex" 0) :=
  ((c9_sessions_public_fields sAfterSignup "a@x.com" "secret1" "Alex" 0 true
    ⟨defaultUser "a@x.com" "Alex" 0, "secret1"⟩ (defaultUser "a@x.com" "Alex" 0)
    graduatePatch).2.1 rfl rfl).1

/-- C10: login, successful or failed, and logout never change the users
mapping; a failed signup leaves it unchanged; updateProfile leaves the
whole state unchanged without an active session and leaves the users
mapping unchanged when the session email has no record, so only a
successful signup and an updateProfile whose session email is present
write to the mapping. -/
theorem c10_users_mapping_frame (s : StoreState) (e p n : String) (now : Nat)
    (r : Bool) (d : ProfilePatch) :
    (login s e p r).1.users = s.users ∧
    (logout s).users = s.users ∧
    ((signup s e p n now).2 ≠ AuthResult.ok → (signup s e p n now).1.users = s.users) ∧
    (s.authUser = none → updateProfile s d = s) ∧
    (∀ au : UserProfile, s.authUser = some au → s.users au.email = none →
      (updateProfile s d).users = s.users) := by
  refine ⟨?_, rfl, ?_, ?_, ?_⟩
  · rcases hrec : s.users e with _ | rec
    · simp [login, hrec]
    · by_cases hp : rec.password = p
      · cases r <;> simp [login, hrec, hp]
      · simp [login, hrec, hp]
  · intro hne
    rcases hrec : s.users e with _ | rec
    · exact absurd (by simp [signup, hrec]) hne
    · simp [signup, hrec]
  · intro h
    simp [updateProfile, h]
  · intro au h hrec
    simp [updateProfile, h, hrec]

/-- C10 witness: the frame conditions at concrete scenario states,
including a failed signup and an updateProfile with no active session. -/
theorem c10_users_mapping_frame_witness :
    (login sAfterSignup "a@x.com" "secret1" false).1.users = sAfterSignup.users ∧
    (signup sAfterSignup "a@x.com" "p2" "n2" 1).1.users = sAfterSignup.users ∧
    updateProfile sAfterLogout graduatePatch = sAfterLogout :=
  ⟨(c10_users_mapping_frame sAfterSignup "a@x.com" "secret1" "n" 0 false graduatePatch).1,
   (c10_users_mapping_frame sAfterSignup "a@x.com" "p2" "n2" 1 false graduatePatch).2.2.1
     (by decide),
   (c10_users_mapping_frame sAfterLogout "a@x.com" "p" "n" 0 false graduatePatch).2.2.2.1
     rfl⟩

end SmartLearning
